import Mathlib

/-!
Verification development for the dual-video comparison component.

The component consists of two React source files:
* `VideoComparison.tsx` — the drift-corrective sync-loop variant
  (reference = left stream, follower = right stream);
* a gallery variant with per-side loading-state tracking.

Times, durations and playback rates are modelled as rationals; media
elements, scheduler handles and event traces are modelled explicitly.
-/

set_option autoImplicit false

/-- Observable state of one media element, as read by the sync loop. -/
structure MediaState where
  currentTime : ℚ
  playbackRate : ℚ
  /-- `none` models a non-finite (NaN) duration. -/
  duration : Option ℚ
deriving Repr, DecidableEq

/-- HARD threshold of the drift correction: 80ms. -/
def HARD : ℚ := 8 / 100

/-- SOFT threshold of the drift correction: 20ms. -/
def SOFT : ℚ := 2 / 100

/-- End-of-stream proximity window: 40ms. -/
def LOOP_GAP : ℚ := 4 / 100

/-- End-of-stream proximity test on the reference (left) stream:
`Number.isFinite(d) && d > 0 && (d - L.currentTime) <= LOOP_GAP`. -/
def nearEnd (L : MediaState) : Bool :=
  match L.duration with
  | some d => decide (0 < d ∧ d - L.currentTime ≤ LOOP_GAP)
  | none => false

/-- Effect of one sync-loop iteration on the follower (right) stream:
resulting rate and time, whether each was written, and whether the
synchronized restart was delegated to. -/
structure DriftEffect where
  rate : ℚ
  time : ℚ
  rateWritten : Bool
  timeWritten : Bool
  restartCalled : Bool
deriving Repr, DecidableEq

/-- Body of one iteration of the sync loop (the `step` closure of
`startSyncLoop`), given the observable states of the left (reference)
and right (follower) elements. -/
def step (L R : MediaState) : DriftEffect :=
  if nearEnd L then
    { rate := R.playbackRate, time := R.currentTime,
      rateWritten := false, timeWritten := false, restartCalled := true }
  else
    let diff := R.currentTime - L.currentTime
    if HARD ≤ |diff| then
      { rate := 1, time := L.currentTime,
        rateWritten := true, timeWritten := true, restartCalled := false }
    else if SOFT ≤ |diff| then
      let sign : ℚ := if diff < 0 then 1 else -1
      let delta : ℚ := min (5 / 100) (max (1 / 100) (|diff| * (6 / 10)))
      { rate := 1 + sign * delta, time := R.currentTime,
        rateWritten := true, timeWritten := false, restartCalled := false }
    else if R.playbackRate ≠ 1 then
      { rate := 1, time := R.currentTime,
        rateWritten := true, timeWritten := false, restartCalled := false }
    else
      { rate := R.playbackRate, time := R.currentTime,
        rateWritten := false, timeWritten := false, restartCalled := false }

/-!
Scheduler bookkeeping of the sync loop.  `loopHandle` is the component
ref holding the most recently scheduled callback handle; `pending` is
the set (as a list) of callbacks currently scheduled in the browser
scheduler and not yet fired or canceled; `fresh` supplies new handle
ids.  The atomic operations are exactly the call sites in the source:
`startSyncLoopS` (cancel, then schedule the first step),
`cancelSyncLoopS` (run at the start of `loadAndStart`, on pause, and in
effect cleanup) and `fireStepS` (the scheduler fires the pending step,
whose body re-arms itself via `scheduleStep` unless a handle is gone).
-/

structure SessState where
  pending : List Nat
  loopHandle : Option Nat
  fresh : Nat
deriving Repr, DecidableEq

/-- Initial session state: nothing scheduled, no handle. -/
def initSessState : SessState := { pending := [], loopHandle := none, fresh := 0 }

/-- Scheduling a step registers a fresh callback and stores its handle. -/
def scheduleStepS (s : SessState) : SessState :=
  { pending := s.pending ++ [s.fresh], loopHandle := some s.fresh, fresh := s.fresh + 1 }

/-- Canceling the sync loop: if a handle is stored, the corresponding
callback is removed from the scheduler and the handle is cleared. -/
def cancelSyncLoopS (s : SessState) : SessState :=
  match s.loopHandle with
  | none => s
  | some i => { pending := s.pending.erase i, loopHandle := none, fresh := s.fresh }

/-- The body of `startSyncLoop`: cancel any previous loop, then schedule
the first step. -/
def startSyncLoopS (s : SessState) : SessState :=
  scheduleStepS (cancelSyncLoopS s)

/-- The scheduler fires the pending callback: it is consumed, and the
step body re-arms itself via `scheduleStep` (`rearm = false` models the
early return when a media handle is missing). -/
def fireStepS (s : SessState) (rearm : Bool) : SessState :=
  match s.pending with
  | [] => s
  | i :: _ =>
    let s1 : SessState := { s with pending := s.pending.erase i }
    if rearm then scheduleStepS s1 else s1

/-- Atomic scheduler-touching operations of the component.  A pair
activation (`loadAndStart`) is the sequence `cancel` followed (after
its awaits) by `startLoop` or by nothing; the pause path is `cancel`;
toggling intent to playing is `startLoop`. -/
inductive SyncOp
  | startLoop
  | cancel
  | fire (rearm : Bool)
deriving Repr, DecidableEq

/-- Apply one atomic operation to the session state. -/
def applyOp (s : SessState) (op : SyncOp) : SessState :=
  match op with
  | .startLoop => startSyncLoopS s
  | .cancel => cancelSyncLoopS s
  | .fire rearm => fireStepS s rearm

/-- Session invariant: at most one iteration is scheduled, and any
scheduled iteration is the one the stored handle names. -/
def SessInv (s : SessState) : Prop :=
  s.pending.length ≤ 1 ∧ ∀ i ∈ s.pending, s.loopHandle = some i

/-!
Cancellation primitives.  `cancelSyncLoop` in the source dispatches on
the stored handle kind AND on the left element being present and
exposing `cancelVideoFrameCallback`; otherwise it falls back to
`cancelAnimationFrame`, whatever the handle kind.
-/

inductive HandleKind
  | vfc
  | raf
deriving Repr, DecidableEq

structure LoopHandle where
  kind : HandleKind
  id : Nat
deriving Repr, DecidableEq

/-- Capabilities of a media element relevant to loop scheduling. -/
structure VideoCaps where
  hasRequestVFC : Bool
  hasCancelVFC : Bool
deriving Repr, DecidableEq

/-- Which browser call a cancellation performs. -/
inductive CancelCall
  | cvfc (id : Nat)
  | caf (id : Nat)
  | nocall
deriving Repr, DecidableEq

/-- Presence test used by the guard `L && "cancelVideoFrameCallback" in L`. -/
def leftHasCancelVFC (left : Option VideoCaps) : Bool :=
  match left with
  | some L => L.hasCancelVFC
  | none => false

/-- The call `cancelSyncLoop` performs, given the current left element
and the stored handle. -/
def cancelSyncLoop (left : Option VideoCaps) (h : Option LoopHandle) : CancelCall :=
  match h with
  | none => .nocall
  | some hh =>
    if hh.kind = .vfc ∧ leftHasCancelVFC left = true then .cvfc hh.id
    else .caf hh.id

/-- The handle kind `scheduleStep` records, given the current left
element (`requestVideoFrameCallback` when available, else
`requestAnimationFrame`). -/
def scheduleStep (left : Option VideoCaps) (freshId : Nat) : LoopHandle :=
  match left with
  | some L =>
    if L.hasRequestVFC then { kind := .vfc, id := freshId }
    else { kind := .raf, id := freshId }
  | none => { kind := .raf, id := freshId }

/-!
Synchronized restart (`syncRestart`): no-op when a media handle is
missing or intent is paused; debounced against the anti-thrash
timestamp `justLoopedAt` with a 200ms window; otherwise records the
invocation time and performs the pause / reset-rates / seek-to-zero /
replay sequence (the boolean result).
-/

structure RestartState where
  justLoopedAt : ℚ
  isPlaying : Bool
  handlesPresent : Bool
deriving Repr, DecidableEq

/-- One invocation of `syncRestart` at time `now` (milliseconds):
returns the state afterwards and whether the restart sequence ran. -/
def syncRestart (s : RestartState) (now : ℚ) : RestartState × Bool :=
  if s.handlesPresent = false then (s, false)
  else if s.isPlaying = false then (s, false)
  else if now - s.justLoopedAt < 200 then (s, false)
  else ({ s with justLoopedAt := now }, true)

/-!
Autoplay phase of `loadAndStart` with `play = true`: both play requests
are issued concurrently and allSettled; if any is rejected the intent
falls back to paused and the sync loop is not started, otherwise the
sync loop is started.
-/

inductive PlayResult
  | fulfilled
  | rejected
deriving Repr, DecidableEq

structure ActivationResult where
  loopStarted : Bool
  isPlaying : Bool
deriving Repr, DecidableEq

/-- Outcome of the play phase of `loadAndStart`, given the prior intent
and the settlement of the two play requests. -/
def loadAndStartPlayPhase (prevIntent : Bool) (resL resR : PlayResult) : ActivationResult :=
  if resL = .rejected ∨ resR = .rejected then
    { loopStarted := false, isPlaying := false }
  else
    { loopStarted := true, isPlaying := prevIntent }

/-!
Ready-gate of `VideoComparison.tsx`.  `waitReady` resolves immediately
when `readyState >= 2`, and otherwise registers a listener only for
the `loadeddata` event, resolving when that event fires with
`readyState >= 2`.  An event trace records, for each fired event,
which event it was and the readyState observed at firing time.
-/

inductive MediaEvent
  | loadeddata (readyState : Nat)
  | error
deriving Repr, DecidableEq

/-- Whether the `waitReady` promise has resolved after the given trace
of events, starting from the given readyState. -/
def waitReadyResolves (initialReadyState : Nat) (events : List MediaEvent) : Bool :=
  if 2 ≤ initialReadyState then true
  else
    events.any fun e =>
      match e with
      | .loadeddata rs => decide (2 ≤ rs)
      | .error => false

/-!
Initial active index of the gallery:
`Math.min(Math.max(initialIndex, 0), pairs.length - 1)`.
-/

/-- Initial active index computed from the supplied `initialIndex` and
the number of pairs. -/
def initialActive (initialIndex : ℤ) (numPairs : ℕ) : ℤ :=
  min (max initialIndex 0) ((numPairs : ℤ) - 1)

/-!
Loading-state-tracking gallery variant.  A thumbnail click sets the
selected index, resets the intent to paused and clears both loaded
flags; the effect keyed on `selectedIndex` (which pauses both videos
and resets their positions to zero) re-runs only when the selected
index actually changed between renders.
-/

structure VideoElem where
  currentTime : ℚ
  paused : Bool
deriving Repr, DecidableEq

structure GalleryState where
  selectedIndex : ℕ
  isPlaying : Bool
  v1Loaded : Bool
  v2Loaded : Bool
  v1 : VideoElem
  v2 : VideoElem
deriving Repr, DecidableEq

/-- Body of the effect keyed on `selectedIndex`: zero and pause both
videos, reset intent and loaded flags. -/
def selectIndexEffect (s : GalleryState) : GalleryState :=
  { s with
    v1 := { currentTime := 0, paused := true },
    v2 := { currentTime := 0, paused := true },
    isPlaying := false, v1Loaded := false, v2Loaded := false }

/-- A thumbnail click: the handler state updates always apply; the
selected-index effect additionally runs iff the index changed. -/
def handleThumbnailClick (s : GalleryState) (index : ℕ) : GalleryState :=
  let s1 : GalleryState :=
    { s with selectedIndex := index, isPlaying := false,
             v1Loaded := false, v2Loaded := false }
  if index = s.selectedIndex then s1 else selectIndexEffect s1

/-!
Theorems.
-/

theorem cancelSyncLoopS_spec (s : SessState) (h : SessInv s) :
    (cancelSyncLoopS s).pending = [] ∧ (cancelSyncLoopS s).loopHandle = none := by
  obtain ⟨p, hd, f⟩ := s
  obtain ⟨hlen, hmem⟩ := h
  cases hd with
  | none =>
    cases p with
    | nil => simp [cancelSyncLoopS]
    | cons a l => exact absurd (hmem a (by simp)) (by simp)
  | some i =>
    cases p with
    | nil => simp [cancelSyncLoopS]
    | cons a l =>
      have ha : i = a := by
        have := hmem a (by simp)
        simpa using this
      cases l with
      | nil =>
        subst ha
        simp [cancelSyncLoopS]
      | cons b m => simp at hlen

theorem sessInv_scheduleStepS (s : SessState) (hp : s.pending = []) :
    SessInv (scheduleStepS s) := by
  constructor
  · simp [scheduleStepS, hp]
  · intro i hi
    simp [scheduleStepS, hp] at hi
    simp [scheduleStepS, hi]

theorem sessInv_cancelSyncLoopS (s : SessState) (h : SessInv s) :
    SessInv (cancelSyncLoopS s) := by
  obtain ⟨hp, hh⟩ := cancelSyncLoopS_spec s h
  exact ⟨by simp [hp], fun i hi => absurd hi (by simp [hp])⟩

theorem sessInv_fireStepS (s : SessState) (rearm : Bool) (h : SessInv s) :
    SessInv (fireStepS s rearm) := by
  obtain ⟨hlen, hmem⟩ := h
  cases hp : s.pending with
  | nil =>
    have : fireStepS s rearm = s := by simp [fireStepS, hp]
    rw [this]
    exact ⟨hlen, hmem⟩
  | cons a l =>
    have hl : l = [] := by
      rw [hp] at hlen
      simpa using hlen
    subst hl
    have herase : s.pending.erase a = [] := by
      simp [hp]
    cases rearm with
    | true =>
      have : fireStepS s true = scheduleStepS { s with pending := s.pending.erase a } := by
        simp [fireStepS, hp]
      rw [this]
      exact sessInv_scheduleStepS _ (by simpa using herase)
    | false =>
      have : fireStepS s false = { s with pending := s.pending.erase a } := by
        simp [fireStepS, hp]
      rw [this]
      exact ⟨by simp [herase], fun i hi => absurd hi (by simp [herase])⟩

theorem sessInv_applyOp (s : SessState) (op : SyncOp) (h : SessInv s) :
    SessInv (applyOp s op) := by
  cases op with
  | startLoop => exact sessInv_scheduleStepS _ (cancelSyncLoopS_spec s h).1
  | cancel => exact sessInv_cancelSyncLoopS s h
  | fire rearm => exact sessInv_fireStepS s rearm h

theorem sessInv_foldl (ops : List SyncOp) (s : SessState) (h : SessInv s) :
    SessInv (ops.foldl applyOp s) := by
  induction ops generalizing s with
  | nil => exact h
  | cons op rest ih => exact ih _ (sessInv_applyOp s op h)

/-- C1: at any time at most one sync-loop iteration is scheduled.
Every pair activation and every start of a new loop cancels the
previously scheduled iteration before scheduling a new one
(`startSyncLoopS` is cancel-then-schedule, `loadAndStart` begins with a
cancel), so along every sequence of the component's scheduler-touching
operations, the number of scheduled sync-loop iterations never exceeds
one: no two sync loops ever observably run concurrently. -/
theorem at_most_one_loop_scheduled (ops : List SyncOp) :
    (ops.foldl applyOp initSessState).pending.length ≤ 1 :=
  (sessInv_foldl ops initSessState
    ⟨by simp [initSessState], fun i hi => absurd hi (by simp [initSessState])⟩).1

/-- C2: in every sync-loop iteration where both media handles exist,
end-of-stream proximity is not triggered, and the absolute difference
between follower and reference current times is at least the hard
threshold (0.08s), the follower's playbackRate is set to 1 and the
follower's currentTime is set to the reference's currentTime. -/
theorem hard_threshold_snap (L R : MediaState)
    (hne : nearEnd L = false)
    (hd : HARD ≤ |R.currentTime - L.currentTime|) :
    (step L R).rate = 1 ∧ (step L R).time = L.currentTime ∧
    (step L R).rateWritten = true ∧ (step L R).timeWritten = true := by
  simp [step, hne, hd]

/-- Witness for C2 at the concrete input of the claim: reference at
t = 1.000s, follower at t = 0.900s (diff = 100ms ≥ 80ms) yields
follower time 1.000s and rate 1. -/
theorem hard_threshold_snap_witness :
    (step { currentTime := 1, playbackRate := 1, duration := none }
          { currentTime := 9 / 10, playbackRate := 1, duration := none }).rate = 1 ∧
    (step { currentTime := 1, playbackRate := 1, duration := none }
          { currentTime := 9 / 10, playbackRate := 1, duration := none }).time = 1 := by
  have h := hard_threshold_snap
      { currentTime := 1, playbackRate := 1, duration := none }
      { currentTime := 9 / 10, playbackRate := 1, duration := none }
      (by norm_num [nearEnd])
      (le_abs.mpr (Or.inr (by norm_num [HARD])))
  exact ⟨h.1, h.2.1⟩

/-- C3: in every sync-loop iteration with 0.02s ≤ |diff| < 0.08s (and
end-of-stream proximity not triggered), the follower's playbackRate is
set to 1 plus a signed delta whose direction closes the gap (follower
ahead yields a rate below 1, follower behind a rate above 1) and whose
magnitude lies in [0.01, 0.05]. -/
theorem soft_threshold_nudge (L R : MediaState)
    (hne : nearEnd L = false)
    (hlo : SOFT ≤ |R.currentTime - L.currentTime|)
    (hhi : |R.currentTime - L.currentTime| < HARD) :
    (step L R).rateWritten = true ∧ (step L R).timeWritten = false ∧
    1 / 100 ≤ |(step L R).rate - 1| ∧ |(step L R).rate - 1| ≤ 5 / 100 ∧
    (L.currentTime < R.currentTime → (step L R).rate < 1) ∧
    (R.currentTime < L.currentTime → 1 < (step L R).rate) := by
  have hH : ¬ HARD ≤ |R.currentTime - L.currentTime| := not_le.mpr hhi
  have hchar : (step L R).rate
        = 1 + (if R.currentTime - L.currentTime < 0 then 1 else -1)
            * min (5 / 100) (max (1 / 100) (|R.currentTime - L.currentTime| * (6 / 10))) ∧
      (step L R).rateWritten = true ∧ (step L R).timeWritten = false := by
    simp [step, hne, hH, hlo]
  obtain ⟨hr, hw, ht⟩ := hchar
  have hdel1 : (1 : ℚ) / 100
      ≤ min (5 / 100) (max (1 / 100) (|R.currentTime - L.currentTime| * (6 / 10))) :=
    le_min (by norm_num) (le_max_left _ _)
  have hdel2 :
      min ((5 : ℚ) / 100) (max (1 / 100) (|R.currentTime - L.currentTime| * (6 / 10)))
        ≤ 5 / 100 :=
    min_le_left _ _
  generalize hgen :
    min ((5 : ℚ) / 100) (max (1 / 100) (|R.currentTime - L.currentTime| * (6 / 10))) = d
    at hr hdel1 hdel2
  have hdel0 : (0 : ℚ) ≤ d := le_trans (by norm_num) hdel1
  refine ⟨hw, ht, ?_, ?_, ?_, ?_⟩
  · rw [hr]
    rcases lt_or_le (R.currentTime - L.currentTime) 0 with hlt | hge
    · rw [if_pos hlt]
      have he : (1 : ℚ) + 1 * d - 1 = d := by ring
      rw [he, abs_of_nonneg hdel0]
      exact hdel1
    · rw [if_neg (not_lt.mpr hge)]
      have he : (1 : ℚ) + (-1) * d - 1 = -d := by ring
      rw [he, abs_neg, abs_of_nonneg hdel0]
      exact hdel1
  · rw [hr]
    rcases lt_or_le (R.currentTime - L.currentTime) 0 with hlt | hge
    · rw [if_pos hlt]
      have he : (1 : ℚ) + 1 * d - 1 = d := by ring
      rw [he, abs_of_nonneg hdel0]
      exact hdel2
    · rw [if_neg (not_lt.mpr hge)]
      have he : (1 : ℚ) + (-1) * d - 1 = -d := by ring
      rw [he, abs_neg, abs_of_nonneg hdel0]
      exact hdel2
  · intro hc
    rw [hr, if_neg (by intro habs; linarith)]
    linarith
  · intro hc
    rw [hr, if_pos (by linarith)]
    linarith

/-- Witness for C3 at the concrete inputs of the claim: follower ahead
of the reference by 40ms yields a written rate below 1. -/
theorem soft_threshold_nudge_witness :
    (step { currentTime := 1, playbackRate := 1, duration := none }
          { currentTime := 26 / 25, playbackRate := 1, duration := none }).rate < 1 ∧
    (step { currentTime := 1, playbackRate := 1, duration := none }
          { currentTime := 26 / 25, playbackRate := 1, duration := none }).rateWritten
      = true := by
  have h := soft_threshold_nudge
      { currentTime := 1, playbackRate := 1, duration := none }
      { currentTime := 26 / 25, playbackRate := 1, duration := none }
      (by norm_num [nearEnd])
      (le_abs.mpr (Or.inl (by norm_num [SOFT])))
      (abs_lt.mpr ⟨by norm_num [HARD], by norm_num [HARD]⟩)
  exact ⟨h.2.2.2.2.1 (by norm_num), h.1⟩

/-- C8: in every sync-loop iteration with |diff| < 0.02s and the
follower's playbackRate already 1, nothing is written to the follower:
its rate is left unchanged (hysteresis near zero error). -/
theorem drift_idempotent_at_zero (L R : MediaState)
    (hne : nearEnd L = false)
    (hlt : |R.currentTime - L.currentTime| < SOFT)
    (hrate : R.playbackRate = 1) :
    (step L R).rateWritten = false ∧ (step L R).rate = R.playbackRate ∧
    (step L R).timeWritten = false := by
  have hH : ¬ HARD ≤ |R.currentTime - L.currentTime| :=
    not_le.mpr (lt_trans hlt (by norm_num [SOFT, HARD]))
  have hS : ¬ SOFT ≤ |R.currentTime - L.currentTime| := not_le.mpr hlt
  simp [step, hne, hH, hS, hrate]

/-- Witness for C8: diff = 10ms with rate already 1 leaves the rate
unwritten and unchanged. -/
theorem drift_idempotent_at_zero_witness :
    (step { currentTime := 1, playbackRate := 1, duration := none }
          { currentTime := 101 / 100, playbackRate := 1, duration := none }).rateWritten
      = false ∧
    (step { currentTime := 1, playbackRate := 1, duration := none }
          { currentTime := 101 / 100, playbackRate := 1, duration := none }).rate = 1 := by
  have h := drift_idempotent_at_zero
      { currentTime := 1, playbackRate := 1, duration := none }
      { currentTime := 101 / 100, playbackRate := 1, duration := none }
      (by norm_num [nearEnd])
      (abs_lt.mpr ⟨by norm_num [SOFT], by norm_num [SOFT]⟩)
      rfl
  exact ⟨h.1, h.2.1⟩

/-- C5: the synchronized restart is debounced.  If an invocation of
syncRestart at time t1 performs the restart sequence, then a second
invocation at time t2 with t1 ≤ t2 and |t2 − t1| < 200ms is a no-op
(state unchanged, sequence not performed), whatever the intent and
handle presence are at the second invocation; hence at most one of two
invocations within a 200ms window performs the sequence. -/
theorem syncRestart_debounced (s : RestartState) (t1 t2 : ℚ) (p q : Bool)
    (_hordered : t1 ≤ t2) (hwin : |t2 - t1| < 200)
    (hfirst : (syncRestart s t1).2 = true) :
    syncRestart { justLoopedAt := (syncRestart s t1).1.justLoopedAt,
                  isPlaying := p, handlesPresent := q } t2
      = ({ justLoopedAt := (syncRestart s t1).1.justLoopedAt,
           isPlaying := p, handlesPresent := q }, false) := by
  have hwin2 : t2 - t1 < 200 := lt_of_le_of_lt (le_abs_self _) hwin
  by_cases hh : s.handlesPresent = false
  · simp [syncRestart, hh] at hfirst
  · by_cases hp1 : s.isPlaying = false
    · simp [syncRestart, hh, hp1] at hfirst
    · by_cases hd : t1 - s.justLoopedAt < 200
      · simp [syncRestart, hh, hp1, hd] at hfirst
      · have hjla : (syncRestart s t1).1.justLoopedAt = t1 := by
          simp [syncRestart, hh, hp1, hd]
        rw [hjla]
        by_cases hq : q = false
        · simp [syncRestart, hq]
        · by_cases hpf : p = false
          · simp [syncRestart, hq, hpf]
          · simp [syncRestart, hq, hpf, hwin2]

/-- Witness for C5: a restart performed at t = 300ms makes a second
invocation at t = 400ms (100ms later) a no-op. -/
theorem syncRestart_debounced_witness :
    syncRestart
        { justLoopedAt := (syncRestart ⟨0, true, true⟩ 300).1.justLoopedAt,
          isPlaying := true, handlesPresent := true } 400
      = ({ justLoopedAt := (syncRestart ⟨0, true, true⟩ 300).1.justLoopedAt,
           isPlaying := true, handlesPresent := true }, false) :=
  syncRestart_debounced ⟨0, true, true⟩ 300 400 true true (by norm_num)
    (by norm_num [abs_of_nonneg]) (by norm_num [syncRestart])

/-- C6: during pair activation with autoplay requested, if either play
request rejects, the component falls back to paused intent and does not
start the sync loop; the sync loop is started exactly when both play
requests resolve. -/
theorem autoplay_rejection_fallback (prev : Bool) (rL rR : PlayResult) :
    ((rL = .rejected ∨ rR = .rejected) →
      (loadAndStartPlayPhase prev rL rR).loopStarted = false ∧
      (loadAndStartPlayPhase prev rL rR).isPlaying = false) ∧
    ((loadAndStartPlayPhase prev rL rR).loopStarted = true ↔
      rL = .fulfilled ∧ rR = .fulfilled) := by
  cases rL <;> cases rR <;> simp [loadAndStartPlayPhase]

/-- Witness for C6: the follower's play() rejecting yields paused
intent and no sync loop. -/
theorem autoplay_rejection_fallback_witness :
    (loadAndStartPlayPhase true .fulfilled .rejected).loopStarted = false ∧
    (loadAndStartPlayPhase true .fulfilled .rejected).isPlaying = false :=
  (autoplay_rejection_fallback true .fulfilled .rejected).1 (Or.inr rfl)

/-- C7 (amended): cancellation uses the matching primitive whenever the
left element is present and exposes cancelVideoFrameCallback at
cancellation time: a vfc-scheduled iteration is then canceled via
cancelVideoFrameCallback, and a raf-scheduled one via
cancelAnimationFrame. -/
theorem cancel_uses_matching_primitive (L : VideoCaps) (hh : LoopHandle)
    (hc : L.hasCancelVFC = true) :
    (hh.kind = .vfc → cancelSyncLoop (some L) (some hh) = .cvfc hh.id) ∧
    (hh.kind = .raf → cancelSyncLoop (some L) (some hh) = .caf hh.id) := by
  constructor <;> intro hk <;> simp [cancelSyncLoop, leftHasCancelVFC, hk, hc]

/-- Witness for C7: a vfc handle with a capable left element is
canceled via cancelVideoFrameCallback. -/
theorem cancel_uses_matching_primitive_witness :
    cancelSyncLoop (some { hasRequestVFC := true, hasCancelVFC := true })
        (some { kind := .vfc, id := 3 }) = .cvfc 3 :=
  (cancel_uses_matching_primitive { hasRequestVFC := true, hasCancelVFC := true }
      { kind := .vfc, id := 3 } rfl).1 rfl

/-- Counterexample to C7 as stated: in the state where the stored
handle records a vfc-scheduled iteration but the left element is absent
at cancellation time (the ref is null, e.g. after unmount),
cancelSyncLoop cancels the vfc handle via cancelAnimationFrame — not
the matching primitive. -/
theorem cancel_mismatch_counterexample :
    cancelSyncLoop none (some { kind := .vfc, id := 7 }) = .caf 7 ∧
    cancelSyncLoop none (some { kind := .vfc, id := 7 }) ≠ .cvfc 7 := by
  decide

/-- C4 (code violation): the ready-gate of waitReady listens only for
the loadeddata event; for a media element whose load fails (readyState
0 and only error events ever fired) the promise never resolves, and no
distinct failed state is surfaced — it resolves only via a loadeddata
event with readyState at least 2. -/
theorem waitReady_unresolved_on_error :
    waitReadyResolves 0 [MediaEvent.error] = false ∧
    waitReadyResolves 0 [MediaEvent.error, MediaEvent.error] = false ∧
    waitReadyResolves 0 [MediaEvent.loadeddata 2] = true := by
  decide

/-- Counterexample to C9 as stated: with an empty pairs sequence the
initial active index evaluates to −1, which is not a valid index of the
supplied sequence. -/
theorem initialActive_empty_counterexample :
    initialActive 0 0 = -1 ∧ ¬ (0 ≤ initialActive 0 0) := by
  decide

/-- C9 (amended): for every nonempty pairs sequence and every
initialIndex value, the initial active index is clamped into the valid
range 0 ≤ active ≤ pairs.length − 1. -/
theorem initialActive_clamped (i : ℤ) (n : ℕ) (hn : 0 < n) :
    0 ≤ initialActive i n ∧ initialActive i n ≤ (n : ℤ) - 1 := by
  unfold initialActive
  exact ⟨le_min (le_max_right i 0) (by omega), min_le_right _ _⟩

/-- Witness for C9: three pairs with initialIndex 7 clamp to an index
in range. -/
theorem initialActive_clamped_witness :
    0 ≤ initialActive 7 3 ∧ initialActive 7 3 ≤ ((3 : ℕ) : ℤ) - 1 :=
  initialActive_clamped 7 3 (by norm_num)

/-- Counterexample to C10 as stated: clicking the thumbnail of the
already-selected pair while playing resets the intent flag, but the
selected-index effect does not re-run (its dependency is unchanged), so
the video elements are neither paused nor reset to zero. -/
theorem thumbnailClick_same_index_counterexample :
    (handleThumbnailClick
        { selectedIndex := 0, isPlaying := true, v1Loaded := true, v2Loaded := true,
          v1 := { currentTime := 5, paused := false },
          v2 := { currentTime := 5, paused := false } } 0).v1.paused = false ∧
    (handleThumbnailClick
        { selectedIndex := 0, isPlaying := true, v1Loaded := true, v2Loaded := true,
          v1 := { currentTime := 5, paused := false },
          v2 := { currentTime := 5, paused := false } } 0).v1.currentTime = 5 := by
  norm_num [handleThumbnailClick]

/-- C10 (amended): every thumbnail click resets the playback intent to
paused and clears both loaded flags; when the click changes the
selected index, the selected-index effect additionally pauses both
videos and resets their positions to zero — a pair switch never
autoplays. -/
theorem thumbnailClick_lands_paused (s : GalleryState) (index : ℕ) :
    (handleThumbnailClick s index).isPlaying = false ∧
    (handleThumbnailClick s index).v1Loaded = false ∧
    (handleThumbnailClick s index).v2Loaded = false ∧
    (handleThumbnailClick s index).selectedIndex = index ∧
    (index ≠ s.selectedIndex →
      (handleThumbnailClick s index).v1 = { currentTime := 0, paused := true } ∧
      (handleThumbnailClick s index).v2 = { currentTime := 0, paused := true }) := by
  by_cases h : index = s.selectedIndex <;>
    simp [handleThumbnailClick, selectIndexEffect, h]

/-- Witness for C10: switching from pair 0 to pair 1 while playing lands
in the paused state with both videos zeroed. -/
theorem thumbnailClick_lands_paused_witness :
    (handleThumbnailClick
        { selectedIndex := 0, isPlaying := true, v1Loaded := true, v2Loaded := true,
          v1 := { currentTime := 5, paused := false },
          v2 := { currentTime := 5, paused := false } } 1).v1
      = { currentTime := 0, paused := true } ∧
    (handleThumbnailClick
        { selectedIndex := 0, isPlaying := true, v1Loaded := true, v2Loaded := true,
          v1 := { currentTime := 5, paused := false },
          v2 := { currentTime := 5, paused := false } } 1).isPlaying = false := by
  have h := thumbnailClick_lands_paused
      { selectedIndex := 0, isPlaying := true, v1Loaded := true, v2Loaded := true,
        v1 := { currentTime := 5, paused := false },
        v2 := { currentTime := 5, paused := false } } 1
  exact ⟨(h.2.2.2.2 (by decide)).1, h.1⟩
